import Mathlib

/-!
Shallow embedding of `src/local_model_server.py` (a FastAPI local model
server).  Python dictionaries holding the model cache are modelled as
association lists; the external `llama_cpp.Llama` engine is modelled as an
environment of pure functions (`fsExists` for `os.path.exists`, `llamaNew`
for the `Llama(...)` constructor, `generate` for calling the loaded model).
Fallible Python calls are modelled with `Except`.  The embedding is
instrumented: each operation reports how many filesystem probes, engine
constructions and generation calls it performed, so that claims of the form
"never touches the filesystem / never instantiates the engine" can be
stated directly.
-/

/-- Python float, modelled as a rational number; no claim in this
development does arithmetic on it, it is carried through verbatim. -/
abbrev PyFloat := Rat

/-- Embedding of `fastapi.HTTPException`: a status code and a detail
message. -/
structure HTTPException where
  status_code : Nat
  detail : String
deriving DecidableEq

/-- Embedding of `str(e)` for a `starlette`/`fastapi` `HTTPException`:
its `__str__` returns the status code, a colon-space, and the detail. -/
def strOfHTTPException (e : HTTPException) : String :=
  toString e.status_code ++ ": " ++ e.detail

/-- One entry of the `MODELS` configuration dictionary
(`path`, `name`, `context_length`). -/
structure ModelConfig where
  path : String
  name : String
  context_length : Nat
deriving DecidableEq

/-- The fixed `MODELS` configuration dictionary of the source
(four ids, all pointing at the same file). -/
def MODELS : List (String × ModelConfig) :=
  [ ("mistral", ⟨"./models/llama.gguf", "Llama-3-8B-Instruct", 4096⟩),
    ("llama", ⟨"./models/llama.gguf", "Llama-3-8B-Instruct", 4096⟩),
    ("tinyllama", ⟨"./models/llama.gguf", "Llama-3-8B-Instruct", 4096⟩),
    ("openhermes", ⟨"./models/llama.gguf", "Llama-3-8B-Instruct", 4096⟩) ]

/-- A chat message: a Python `Dict[str, str]` that the source reads only
through `message.get("role", "user")` and `message.get("content", "")`,
so it is modelled by the two optional entries. -/
structure Msg where
  role : Option String
  content : Option String
deriving DecidableEq

/-- Embedding of `message.get("role", "user")`. -/
def roleOf (m : Msg) : String := m.role.getD "user"

/-- Embedding of `message.get("content", "")`. -/
def contentOf (m : Msg) : String := m.content.getD ""

/-- One iteration of the prompt-formatting loop in `chat`: the string the
message contributes to `prompt`.  A role matching none of the three
branches contributes nothing, since the source's `if/elif` chain has no
`else` branch. -/
def renderMsg (m : Msg) : String :=
  let role := roleOf m
  let content := contentOf m
  if role == "system" then "System: " ++ content ++ "\n"
  else if role == "user" then "User: " ++ content ++ "\n"
  else if role == "assistant" then "Assistant: " ++ content ++ "\n"
  else ""

/-- The prompt-formatting loop of `chat`: start from `""`, append each
message's contribution in request order, then append the trailing
`"Assistant: "` (no newline). -/
def renderPrompt (msgs : List Msg) : String :=
  (msgs.foldl (fun acc m => acc ++ renderMsg m) "") ++ "Assistant: "

/-- Embedding of the `ChatRequest` pydantic model: `model`, `messages`,
`temperature` (default `0.7`), `max_tokens` (default `1024`). -/
structure ChatRequest where
  model : String
  messages : List Msg
  temperature : PyFloat := (7 : Rat) / 10
  max_tokens : Int := 1024

/-- Token usage dictionary: the three integer entries the source reads
and re-emits (`prompt_tokens`, `completion_tokens`, `total_tokens`). -/
structure Usage where
  prompt_tokens : Int
  completion_tokens : Int
  total_tokens : Int
deriving DecidableEq

/-- One element of the engine response's `choices` list; the source reads
only its `text` field. -/
structure Choice where
  text : String
deriving DecidableEq

/-- The dictionary returned by calling the loaded `Llama` model: the
source reads `response["choices"][0]["text"]` and `response["usage"]`. -/
structure GenResponse where
  choices : List Choice
  usage : Usage
deriving DecidableEq

/-- Drops leading whitespace characters from a character list. -/
def stripLeftChars : List Char → List Char
  | [] => []
  | c :: cs => if c.isWhitespace then stripLeftChars cs else c :: cs

/-- Embedding of Python `str.strip()` with no argument: remove leading and
trailing whitespace.  (Stated over `Char.isWhitespace`; none of the claims
involve the exotic Unicode whitespace Python additionally strips.) -/
def pyStrip (s : String) : String :=
  ⟨(stripLeftChars (stripLeftChars s.data).reverse).reverse⟩

/-- Embedding of the `ChatResponse` pydantic model:
`model`, `response`, `usage`. -/
structure ChatResponse where
  model : String
  response : String
  usage : Usage
deriving DecidableEq

/-- The external collaborators of the core, over an abstract handle type
`H` standing for `llama_cpp.Llama`: `fsExists` is `os.path.exists`;
`llamaNew path n_ctx n_gpu_layers` is the `Llama(...)` constructor, which
may throw (modelled by `Except`);
`generate handle prompt max_tokens temperature stop echo` is calling the
loaded model, which may also throw. -/
structure Env (H : Type) where
  fsExists : String → Bool
  llamaNew : String → Nat → Nat → Except String H
  generate : H → String → Int → PyFloat → List String → Bool →
    Except String GenResponse

/-- The `loaded_models` global dictionary, modelled as an association list
from model key to loaded handle. -/
abbrev Cache (H : Type) := List (String × H)

/-- Instrumented outcome of `load_model`: the returned handle or raised
`HTTPException`, the cache after the call, and how many `os.path.exists`
probes and `Llama(...)` constructions the call performed. -/
structure LoadOutcome (H : Type) where
  result : Except HTTPException H
  cache : Cache H
  fsChecks : Nat
  engineCalls : Nat

/-- Embedding of `load_model`, instrumented.  In source order: return the
cached handle if present; raise 404 `"Model {key} not found"` if the key
is not in `MODELS`; raise 404 `"Model file not found: {path}"` if the
configured path does not exist; otherwise construct the engine with the
configured path, the configured context length and `n_gpu_layers = 55`,
caching the handle on success and raising 500
`"Failed to load model: ..."` on failure. -/
def load_model {H : Type} (env : Env H) (cache : Cache H) (model_key : String) :
    LoadOutcome H :=
  match cache.lookup model_key with
  | some m => ⟨.ok m, cache, 0, 0⟩
  | none =>
    match MODELS.lookup model_key with
    | none => ⟨.error ⟨404, "Model " ++ model_key ++ " not found"⟩, cache, 0, 0⟩
    | some model_config =>
      if env.fsExists model_config.path then
        match env.llamaNew model_config.path model_config.context_length 55 with
        | .ok model => ⟨.ok model, (model_key, model) :: cache, 1, 1⟩
        | .error e =>
          ⟨.error ⟨500, "Failed to load model: " ++ e⟩, cache, 1, 1⟩
      else
        ⟨.error ⟨404, "Model file not found: " ++ model_config.path⟩, cache, 1, 0⟩

/-- Instrumented outcome of the `/chat` handler: the HTTP-level result,
the cache after the call, and the counts of filesystem probes, engine
constructions and generation calls. -/
structure ChatOutcome (H : Type) where
  result : Except HTTPException ChatResponse
  cache : Cache H
  fsChecks : Nat
  engineCalls : Nat
  genCalls : Nat

/-- Embedding of the `/chat` handler.  The whole body sits in a
`try/except Exception` block whose handler raises
`HTTPException(status_code=500, detail=str(e))`; since `HTTPException` is
itself a subclass of `Exception`, the 404/500 exceptions raised by
`load_model` are caught by that handler and re-raised with status 500 and
detail `str(e)` (the status-colon-detail rendering).  On the success path
the handler renders the prompt, calls the model with the fixed stop
sequences `["User:", "System:"]` and `echo=False`, strips the first
choice's text (Python `str.strip`, modelled by `pyStrip`), and passes
the three usage fields through verbatim.  An empty `choices` list would
make `response["choices"][0]` raise an `IndexError`, also caught and
mapped to 500. -/
def chat {H : Type} (env : Env H) (cache : Cache H) (request : ChatRequest) :
    ChatOutcome H :=
  match load_model env cache request.model with
  | ⟨.error e, c, fs, ec⟩ =>
    ⟨.error ⟨500, strOfHTTPException e⟩, c, fs, ec, 0⟩
  | ⟨.ok model, c, fs, ec⟩ =>
    match env.generate model (renderPrompt request.messages) request.max_tokens
        request.temperature ["User:", "System:"] false with
    | .error e => ⟨.error ⟨500, e⟩, c, fs, ec, 1⟩
    | .ok response =>
      match response.choices.head? with
      | none => ⟨.error ⟨500, "list index out of range"⟩, c, fs, ec, 1⟩
      | some choice0 =>
        ⟨.ok ⟨request.model, pyStrip choice0.text, response.usage⟩, c, fs, ec, 1⟩

/-- The role-to-line mapping the spec describes for recognized roles;
used only to state rendering claims. -/
def prefixFor (role : String) : String :=
  if role == "system" then "System: "
  else if role == "user" then "User: "
  else "Assistant: "

/-- A concrete environment over `H = Nat` used for witnesses and
counterexamples: every path exists, the constructor returns handle `7`,
and generation returns one choice with a stub usage report. -/
def env0 : Env Nat where
  fsExists := fun _ => true
  llamaNew := fun _ _ _ => .ok 7
  generate := fun _ _ _ _ _ _ =>
    .ok ⟨[⟨"  Hello there.  "⟩], ⟨12, 5, 17⟩⟩

/-- Like `env0` but no file exists on disk. -/
def envNoFs : Env Nat where
  fsExists := fun _ => false
  llamaNew := fun _ _ _ => .ok 7
  generate := fun _ _ _ _ _ _ =>
    .ok ⟨[⟨"  Hello there.  "⟩], ⟨12, 5, 17⟩⟩

/-! Helper lemmas shared by several claims. -/

/-- Joining a cons is appending the head to the joined tail. -/
theorem join_cons (s : String) (l : List String) :
    String.join (s :: l) = s ++ String.join l := by
  apply String.ext
  simp [String.join_eq]

/-- Joining an append is appending the joins. -/
theorem join_append (l₁ l₂ : List String) :
    String.join (l₁ ++ l₂) = String.join l₁ ++ String.join l₂ := by
  apply String.ext
  simp [String.join_eq]

/-- The prompt loop is the concatenation of per-message contributions. -/
theorem foldl_render (msgs : List Msg) (acc : String) :
    msgs.foldl (fun a m => a ++ renderMsg m) acc =
      acc ++ String.join (msgs.map renderMsg) := by
  induction msgs generalizing acc with
  | nil => simp [String.join]
  | cons m ms ih =>
    simp only [List.foldl_cons, List.map_cons, join_cons, ih,
      String.append_assoc]

/-- Looking up the key just inserted at the front of the cache. -/
theorem lookup_cons_self {H : Type} (k : String) (h : H) (t : Cache H) :
    ((k, h) :: t).lookup k = some h := by
  simp [List.lookup]

/-- A cached key is returned as-is with no side effects. -/
theorem load_model_cached {H : Type} (env : Env H) (cache : Cache H)
    (k : String) (h : H) (hc : cache.lookup k = some h) :
    load_model env cache k = ⟨.ok h, cache, 0, 0⟩ := by
  unfold load_model
  rw [hc]

/-- A key that is neither cached nor configured raises 404 with no
filesystem probe and no engine construction. -/
theorem load_model_not_configured {H : Type} (env : Env H) (cache : Cache H)
    (k : String) (hc : cache.lookup k = none) (hm : MODELS.lookup k = none) :
    load_model env cache k =
      ⟨.error ⟨404, "Model " ++ k ++ " not found"⟩, cache, 0, 0⟩ := by
  unfold load_model
  rw [hc, hm]

/-- A configured, uncached key whose file is absent raises 404 after one
filesystem probe and no engine construction; the cache is unchanged. -/
theorem load_model_file_absent {H : Type} (env : Env H) (cache : Cache H)
    (k : String) (cfg : ModelConfig) (hc : cache.lookup k = none)
    (hm : MODELS.lookup k = some cfg) (hfs : env.fsExists cfg.path = false) :
    load_model env cache k =
      ⟨.error ⟨404, "Model file not found: " ++ cfg.path⟩, cache, 1, 0⟩ := by
  unfold load_model
  rw [hc, hm]
  simp [hfs]

/-- A configured, uncached key whose file exists and whose construction
succeeds is loaded with exactly one probe and one engine construction, and
the handle is inserted into the cache. -/
theorem load_model_fresh_load {H : Type} (env : Env H) (cache : Cache H)
    (k : String) (cfg : ModelConfig) (h : H) (hc : cache.lookup k = none)
    (hm : MODELS.lookup k = some cfg) (hfs : env.fsExists cfg.path = true)
    (hnew : env.llamaNew cfg.path cfg.context_length 55 = .ok h) :
    load_model env cache k = ⟨.ok h, (k, h) :: cache, 1, 1⟩ := by
  unfold load_model
  rw [hc, hm]
  simp [hfs, hnew]

/-! Claim theorems. -/

/-- C1.  The claim says unknown-id and missing-file requests are answered
with 404 at the `/chat` boundary, never 500.  The code contradicts this:
`load_model` deliberately raises `HTTPException(404, ...)`, but the
handler's catch-all `except Exception` intercepts those exceptions (an
`HTTPException` is an `Exception`) and re-raises them with status 500 and
`str(e)` as detail.  Both failing inputs evaluate to status 500. -/
theorem chat_converts_registry_404_to_500 :
    (chat env0 ([] : Cache Nat) ⟨"nope", [], (7 : Rat) / 10, 1024⟩).result =
      .error ⟨500, "404: Model nope not found"⟩ ∧
    (chat envNoFs ([] : Cache Nat) ⟨"mistral", [], (7 : Rat) / 10, 1024⟩).result =
      .error ⟨500, "404: Model file not found: ./models/llama.gguf"⟩ ∧
    (500 : Nat) ≠ 404 :=
  ⟨rfl, rfl, by decide⟩

/-- C2.  For a configured id whose file exists and whose engine
construction succeeds, the first uncached call performs exactly one engine
construction and stores the handle under the id; any later call returns
the very same handle with no filesystem probe, no engine construction and
an unchanged cache (so, by iterating the last equation, every subsequent
call in the process lifetime returns that same handle). -/
theorem load_model_loads_once_and_caches {H : Type} (env : Env H)
    (cache : Cache H) (k : String) (cfg : ModelConfig) (h : H)
    (hm : MODELS.lookup k = some cfg) (hfs : env.fsExists cfg.path = true)
    (hnew : env.llamaNew cfg.path cfg.context_length 55 = .ok h)
    (hc : cache.lookup k = none) :
    load_model env cache k = ⟨.ok h, (k, h) :: cache, 1, 1⟩ ∧
    ((k, h) :: cache).lookup k = some h ∧
    load_model env ((k, h) :: cache) k = ⟨.ok h, (k, h) :: cache, 0, 0⟩ :=
  ⟨load_model_fresh_load env cache k cfg h hc hm hfs hnew,
   lookup_cons_self k h cache,
   load_model_cached env ((k, h) :: cache) k h (lookup_cons_self k h cache)⟩

/-- Witness for C2 at `k = "mistral"`, `env0`, empty cache. -/
theorem load_model_loads_once_and_caches_witness :
    load_model env0 ([] : Cache Nat) "mistral" = ⟨.ok 7, [("mistral", 7)], 1, 1⟩ ∧
    ([("mistral", 7)] : Cache Nat).lookup "mistral" = some 7 ∧
    load_model env0 ([("mistral", 7)] : Cache Nat) "mistral" =
      ⟨.ok 7, [("mistral", 7)], 0, 0⟩ :=
  load_model_loads_once_and_caches env0 []
    "mistral" ⟨"./models/llama.gguf", "Llama-3-8B-Instruct", 4096⟩ 7
    rfl rfl rfl rfl

/-- C3 counterexample.  The claim says a message whose role is none of
the three known strings (for example `"tool"`) is rendered with the
`"User: "` prefix.  In fact the `if/elif` chain has no `else` branch, so
such a message contributes nothing: the rendered prompt is just the
trailing `"Assistant: "`, not `"User: x\nAssistant: "`. -/
theorem unrecognized_role_rendered_as_user_cex :
    renderPrompt [⟨some "tool", some "x"⟩] = "Assistant: " ∧
    renderPrompt [⟨some "tool", some "x"⟩] ≠ "User: x\nAssistant: " := by
  constructor
  · rfl
  · decide

/-- C3 amended.  A message whose role is present but none of the three
exact strings is dropped: it contributes the empty string to the prompt,
and the rendered prompt equals that of the list with the message removed;
only a message lacking the role key falls back to the user prefix. -/
theorem unrecognized_role_message_skipped (r : String) (c : Option String)
    (h1 : r ≠ "system") (h2 : r ≠ "user") (h3 : r ≠ "assistant") :
    renderMsg ⟨some r, c⟩ = "" ∧
    ∀ ms₁ ms₂ : List Msg,
      renderPrompt (ms₁ ++ ⟨some r, c⟩ :: ms₂) = renderPrompt (ms₁ ++ ms₂) := by
  have hm : renderMsg ⟨some r, c⟩ = "" := by
    simp [renderMsg, roleOf, h1, h2, h3]
  refine ⟨hm, fun ms₁ ms₂ => ?_⟩
  unfold renderPrompt
  rw [foldl_render, foldl_render, List.map_append, List.map_append,
    List.map_cons, join_append, join_append, join_cons, hm]
  simp [String.empty_append, String.append_assoc]

/-- Witness for C3 at role `"tool"`. -/
theorem unrecognized_role_message_skipped_witness :
    renderMsg ⟨some "tool", some "x"⟩ = "" ∧
    renderPrompt ([⟨some "user", some "Hi"⟩] ++ ⟨some "tool", some "x"⟩ ::
        [⟨some "assistant", some "Ok"⟩]) =
      renderPrompt ([⟨some "user", some "Hi"⟩] ++ [⟨some "assistant", some "Ok"⟩]) :=
  ⟨(unrecognized_role_message_skipped "tool" (some "x")
      (by decide) (by decide) (by decide)).1,
   (unrecognized_role_message_skipped "tool" (some "x")
      (by decide) (by decide) (by decide)).2
      [⟨some "user", some "Hi"⟩] [⟨some "assistant", some "Ok"⟩]⟩

/-- C4 counterexample.  The claim says an empty model id fails with
`BadRequest` before contacting the registry.  The handler has no such
check: the empty id flows into `load_model`, fails the configuration
lookup with a 404 `"Model  not found"` exception, and the catch-all
converts it to status 500 - not a 400/422 bad-request failure. -/
theorem empty_model_id_no_badrequest_cex :
    (chat env0 ([] : Cache Nat) ⟨"", [], (7 : Rat) / 10, 1024⟩).result =
      .error ⟨500, "404: Model  not found"⟩ ∧
    (500 : Nat) ≠ 400 ∧ (500 : Nat) ≠ 422 :=
  ⟨rfl, by decide, by decide⟩

/-- C4 amended.  A request with an empty model id is not specially
handled: the cache and configuration lookups in `load_model` do run, the
configuration lookup fails (the empty string is not a configured id), and
the resulting 404 exception is converted by the catch-all to a 500
response; no filesystem probe, engine construction or generation occurs,
and the cache is unchanged. -/
theorem empty_model_id_falls_through_to_500 {H : Type} (env : Env H)
    (cache : Cache H) (req : ChatRequest) (hreq : req.model = "")
    (hc : cache.lookup "" = none) :
    chat env cache req =
      ⟨.error ⟨500, "404: Model  not found"⟩, cache, 0, 0, 0⟩ := by
  have h404 : load_model env cache req.model =
      ⟨.error ⟨404, "Model " ++ "" ++ " not found"⟩, cache, 0, 0⟩ := by
    rw [hreq]
    exact load_model_not_configured env cache "" hc rfl
  unfold chat
  rw [h404]
  rfl

/-- Witness for C4 at the literal empty-id request. -/
theorem empty_model_id_falls_through_to_500_witness :
    chat env0 ([] : Cache Nat) ⟨"", [], (7 : Rat) / 10, 1024⟩ =
      ⟨.error ⟨500, "404: Model  not found"⟩, [], 0, 0, 0⟩ :=
  empty_model_id_falls_through_to_500 env0 [] ⟨"", [], (7 : Rat) / 10, 1024⟩
    rfl rfl

/-- C5.  Prompt rendering is order-preserving and exact: the claim's
concrete three-message conversation renders to exactly the claimed string,
and in general, when every message has a recognized role, the prompt is
the in-order concatenation of prefix-content-newline lines followed by the
trailing `"Assistant: "`. -/
theorem prompt_rendering_exact_and_order_preserving :
    renderPrompt [⟨some "system", some "You are helpful"⟩,
        ⟨some "user", some "Hi"⟩, ⟨some "assistant", some "Hello"⟩] =
      "System: You are helpful\nUser: Hi\nAssistant: Hello\nAssistant: " ∧
    ∀ msgs : List Msg,
      (∀ m ∈ msgs, roleOf m = "system" ∨ roleOf m = "user" ∨
        roleOf m = "assistant") →
      renderPrompt msgs =
        String.join (msgs.map fun m => prefixFor (roleOf m) ++ contentOf m ++ "\n")
          ++ "Assistant: " := by
  constructor
  · rfl
  · intro msgs h
    have hmap : msgs.map renderMsg =
        msgs.map fun m => prefixFor (roleOf m) ++ contentOf m ++ "\n" := by
      apply List.map_congr_left
      intro m hmem
      rcases h m hmem with h1 | h1 | h1 <;>
        simp [renderMsg, prefixFor, h1]
    unfold renderPrompt
    rw [foldl_render, hmap, String.empty_append]

/-- Witness for C5's general clause at a concrete recognized-role list. -/
theorem prompt_rendering_exact_witness :
    renderPrompt [⟨some "user", some "Hi"⟩, ⟨none, some "again"⟩] =
      String.join ([⟨some "user", some "Hi"⟩, ⟨none, some "again"⟩].map
        fun m => prefixFor (roleOf m) ++ contentOf m ++ "\n") ++ "Assistant: " :=
  prompt_rendering_exact_and_order_preserving.2
    [⟨some "user", some "Hi"⟩, ⟨none, some "again"⟩] (by decide)

/-- C6.  A model id that is neither cached nor configured fails with the
404 `"Model {id} not found"` exception, with zero filesystem probes, zero
engine constructions and an unchanged cache. -/
theorem unknown_model_404_no_side_effects {H : Type} (env : Env H)
    (cache : Cache H) (k : String) (hc : cache.lookup k = none)
    (hm : MODELS.lookup k = none) :
    load_model env cache k =
      ⟨.error ⟨404, "Model " ++ k ++ " not found"⟩, cache, 0, 0⟩ :=
  load_model_not_configured env cache k hc hm

/-- Witness for C6 at `k = "nope"`. -/
theorem unknown_model_404_no_side_effects_witness :
    load_model env0 ([] : Cache Nat) "nope" =
      ⟨.error ⟨404, "Model " ++ "nope" ++ " not found"⟩, [], 0, 0⟩ :=
  unknown_model_404_no_side_effects env0 [] "nope" rfl rfl

/-- C7.  A configured, uncached id whose file is absent fails with the
404 `"Model file not found: {path}"` exception after exactly one
filesystem probe, with zero engine constructions and an unchanged
cache. -/
theorem missing_file_404_no_engine_call {H : Type} (env : Env H)
    (cache : Cache H) (k : String) (cfg : ModelConfig)
    (hc : cache.lookup k = none) (hm : MODELS.lookup k = some cfg)
    (hfs : env.fsExists cfg.path = false) :
    load_model env cache k =
      ⟨.error ⟨404, "Model file not found: " ++ cfg.path⟩, cache, 1, 0⟩ :=
  load_model_file_absent env cache k cfg hc hm hfs

/-- Witness for C7 at `k = "mistral"` with no file on disk. -/
theorem missing_file_404_no_engine_call_witness :
    load_model envNoFs ([] : Cache Nat) "mistral" =
      ⟨.error ⟨404, "Model file not found: " ++ "./models/llama.gguf"⟩,
        [], 1, 0⟩ :=
  missing_file_404_no_engine_call envNoFs [] "mistral"
    ⟨"./models/llama.gguf", "Llama-3-8B-Instruct", 4096⟩ rfl rfl rfl

/-- C9.  On a successful generation the response's usage is exactly the
engine's usage report, passed through unmodified; in particular, if the
engine reports a total equal to prompt plus completion, the response
preserves that equality. -/
theorem usage_passed_through_verbatim {H : Type} (env : Env H)
    (cache : Cache H) (req : ChatRequest) (m : H) (c' : Cache H)
    (fs ec : Nat) (resp : GenResponse) (choice0 : Choice)
    (hl : load_model env cache req.model = ⟨.ok m, c', fs, ec⟩)
    (hg : env.generate m (renderPrompt req.messages) req.max_tokens
      req.temperature ["User:", "System:"] false = .ok resp)
    (hch : resp.choices.head? = some choice0) :
    (chat env cache req).result =
      .ok ⟨req.model, pyStrip choice0.text, resp.usage⟩ ∧
    ∀ r : ChatResponse, (chat env cache req).result = .ok r →
      r.usage = resp.usage ∧
      (resp.usage.total_tokens =
          resp.usage.prompt_tokens + resp.usage.completion_tokens →
        r.usage.total_tokens =
          r.usage.prompt_tokens + r.usage.completion_tokens) := by
  have hres : (chat env cache req).result =
      .ok ⟨req.model, pyStrip choice0.text, resp.usage⟩ := by
    unfold chat
    simp only [hl, hg, hch]
  refine ⟨hres, fun r hr => ?_⟩
  rw [hres] at hr
  injection hr with h
  subst h
  exact ⟨rfl, fun ht => ht⟩

/-- Witness for C9 at `env0`'s stub engine (usage `{12, 5, 17}` with
`17 = 12 + 5`). -/
theorem usage_passed_through_verbatim_witness :
    (chat env0 ([] : Cache Nat) ⟨"mistral", [], (7 : Rat) / 10, 1024⟩).result =
      .ok ⟨"mistral", "Hello there.", ⟨12, 5, 17⟩⟩ ∧
    ∀ r : ChatResponse,
      (chat env0 ([] : Cache Nat)
          ⟨"mistral", [], (7 : Rat) / 10, 1024⟩).result = .ok r →
      r.usage = (⟨12, 5, 17⟩ : Usage) ∧
      ((17 : Int) = 12 + 5 →
        r.usage.total_tokens =
          r.usage.prompt_tokens + r.usage.completion_tokens) :=
  usage_passed_through_verbatim env0 [] ⟨"mistral", [], (7 : Rat) / 10, 1024⟩
    7 [("mistral", 7)] 1 1 ⟨[⟨"  Hello there.  "⟩], ⟨12, 5, 17⟩⟩
    ⟨"  Hello there.  "⟩ rfl rfl rfl

/-- C10.  A message lacking the role key is rendered exactly as one with
role `"user"` (so with the `"User: "` prefix), and a message lacking the
content key is rendered exactly as one with empty-string content; neither
omission is an error. -/
theorem missing_role_and_content_defaults :
    (∀ c : Option String,
      renderMsg ⟨none, c⟩ = renderMsg ⟨some "user", c⟩ ∧
      renderMsg ⟨none, c⟩ = "User: " ++ contentOf ⟨none, c⟩ ++ "\n") ∧
    (∀ r : Option String, renderMsg ⟨r, none⟩ = renderMsg ⟨r, some ""⟩) :=
  ⟨fun _ => ⟨rfl, rfl⟩, fun _ => rfl⟩
